import Mathlib

/-!
# Verification of `mvar_plot_legacy.py`

A shallow embedding of the sweep-expansion, combination-iteration and
grid-assembly core of `src/legacy/mvar_plot_legacy.py`, together with
theorems settling the frozen claims about the program.

Python exceptions are modelled with `Except PyExc`; Python `int` is `Int`,
Python `float` is `ℚ` (all inputs evaluated here are exactly representable
in binary floating point, so exact rational arithmetic coincides with the
IEEE computation on them); Python strings are `String`.
-/

deriving instance DecidableEq for Except

namespace MVar

/-- Python exception kinds that the embedded code can raise. -/
inductive PyExc
  | valueError
  | runtimeError (msg : String)
  | attributeError
  | indexError
  | zeroDivisionError
  | typeError
  deriving DecidableEq, Repr

/-- A Python value as it occurs in an axis value list:
`int`, `float`, `str`, `None`, or a tuple (from `itertools.permutations`). -/
inductive PyVal
  | vInt (n : Int)
  | vFloat (q : ℚ)
  | vStr (s : String)
  | vNone
  | vTuple (l : List String)
  deriving DecidableEq, Repr

/-! ## Python string helpers -/

/-- Characters matched by Python's `\s` (ASCII range, which is all that the
inputs here contain). -/
def pySpace (c : Char) : Bool :=
  c = ' ' || c = '\t' || c = '\n' || c = '\r' || c = '\x0b' || c = '\x0c'

/-- Python `str.strip()` on a character list. -/
def stripChars (cs : List Char) : List Char :=
  ((cs.dropWhile pySpace).reverse.dropWhile pySpace).reverse

/-- Python `str.strip()`. -/
def pyStrip (s : String) : String :=
  String.mk (stripChars s.toList)

/-- Python `str.lower()` (ASCII). -/
def pyLower (s : String) : String :=
  String.mk (s.toList.map Char.toLower)

/-! ## A small regex engine

The four numeric range grammars of the source are Python regexes built only
from character classes, concatenation, prefer-left alternation (which also
gives `?`), greedy star over a character class, and capturing groups.  The
engine below enumerates the match candidates in exactly Python's
backtracking priority order (greedy, leftmost alternative first);
`fullmatch` picks the first candidate that consumes the whole input, which
is the match Python's `re.fullmatch` returns. -/

inductive RE
  | eps
  | cls (p : Char → Bool)
  | cat (a b : RE)
  | alt (a b : RE)
  | starCls (p : Char → Bool)
  | group (n : Nat) (a : RE)

/-- The three capture groups the patterns of the source use. -/
structure Caps where
  g1 : Option String := none
  g2 : Option String := none
  g3 : Option String := none
  deriving DecidableEq, Repr

instance : Inhabited Caps := ⟨{}⟩

def setCap (n : Nat) (s : String) (k : Caps) : Caps :=
  match n with
  | 1 => { k with g1 := some s }
  | 2 => { k with g2 := some s }
  | 3 => { k with g3 := some s }
  | _ => k

/-- All ways a regex can match a prefix of `cs`, as `(rest, captures)`
pairs, in backtracking priority order. -/
def REmatch : RE → List Char → Caps → List (List Char × Caps)
  | .eps, cs, k => [(cs, k)]
  | .cls _, [], _ => []
  | .cls p, c :: cs, k => if p c then [(cs, k)] else []
  | .cat a b, cs, k => (REmatch a cs k).flatMap fun rk => REmatch b rk.1 rk.2
  | .alt a b, cs, k => REmatch a cs k ++ REmatch b cs k
  | .starCls p, cs, k =>
      let run := (cs.takeWhile p).length
      (List.range (run + 1)).map fun j => (cs.drop (run - j), k)
  | .group n a, cs, k =>
      (REmatch a cs k).map fun rk =>
        (rk.1, setCap n (String.mk (cs.take (cs.length - rk.1.length))) rk.2)

/-- Python `re.fullmatch`: the first backtracking candidate that consumes
the entire input. -/
def fullmatch (r : RE) (s : String) : Option Caps :=
  (((REmatch r s.toList {}).filter fun rk => rk.1 = []).head?).map (·.2)

/-! ## The four range grammars of the source

```
re_range             \s*([+-]?\s*\d+)\s*-\s*([+-]?\s*\d+)(?:\s*\(([+-]\d+)\s*\))?\s*
re_range_float       \s*([+-]?\s*\d+(?:.\d*)?)\s*-\s*([+-]?\s*\d+(?:.\d*)?)(?:\s*\(([+-]\d+(?:.\d*)?)\s*\))?\s*
re_range_count       \s*([+-]?\s*\d+)\s*-\s*([+-]?\s*\d+)(?:\s*\[(\d+)\s*\])?\s*
re_range_count_float \s*([+-]?\s*\d+(?:.\d*)?)\s*-\s*([+-]?\s*\d+(?:.\d*)?)(?:\s*\[(\d+(?:.\d*)?)\s*\])?\s*
```
Note that the step group `([+-]\d+)` requires an explicit sign, and that
the `.` in `(?:.\d*)?` is an unescaped dot, i.e. any character other than a
newline. -/

def isSignChar (c : Char) : Bool := c = '+' || c = '-'

def ws : RE := .starCls pySpace

/-- `\d+` -/
def digitsP : RE := .cat (.cls Char.isDigit) (.starCls Char.isDigit)

/-- `[+-]?\s*\d+` -/
def intCore : RE := .cat (.alt (.cls isSignChar) .eps) (.cat ws digitsP)

/-- the unescaped `.` of the float patterns: any character but a newline -/
def dotAny (c : Char) : Bool := c ≠ '\n'

/-- `(?:.\d*)?` -/
def floatTail : RE := .alt (.cat (.cls dotAny) (.starCls Char.isDigit)) .eps

/-- `[+-]?\s*\d+(?:.\d*)?` -/
def floatCore : RE := .cat intCore floatTail

/-- `\s* A \s*-\s* B (suffix) \s*` : the common shape of all four patterns,
with `A`,`B` as groups 1 and 2. -/
def rangeShape (core suffix : RE) : RE :=
  .cat ws (.cat (.group 1 core) (.cat ws (.cat (.cls (· = '-'))
    (.cat ws (.cat (.group 2 core) (.cat suffix ws))))))

/-- `(?:\s*\((g3)\s*\))?` -/
def parenSuffix (g3core : RE) : RE :=
  .alt (.cat ws (.cat (.cls (· = '('))
    (.cat (.group 3 g3core) (.cat ws (.cls (· = ')')))))) .eps

/-- `(?:\s*\[(g3)\s*\])?` -/
def bracketSuffix (g3core : RE) : RE :=
  .alt (.cat ws (.cat (.cls (· = '['))
    (.cat (.group 3 g3core) (.cat ws (.cls (· = ']')))))) .eps

/-- `re_range` -/
def re_range : RE := rangeShape intCore (parenSuffix (.cat (.cls isSignChar) digitsP))

/-- `re_range_float` -/
def re_range_float : RE :=
  rangeShape floatCore (parenSuffix (.cat (.cls isSignChar) (.cat digitsP floatTail)))

/-- `re_range_count` -/
def re_range_count : RE := rangeShape intCore (bracketSuffix digitsP)

/-- `re_range_count_float` -/
def re_range_count_float : RE :=
  rangeShape floatCore (bracketSuffix (.cat digitsP floatTail))

/-! ## Python numeric conversions -/

/-- Value of a non-empty all-digit character list. -/
def natDigits : List Char → Option Nat
  | [] => none
  | cs => cs.foldlM (fun acc c => if c.isDigit then some (acc * 10 + (c.toNat - '0'.toNat)) else none) 0

/-- Python `int(s)` on a string: surrounding whitespace allowed, optional
sign directly followed by digits; anything else raises `ValueError` (so
e.g. `int("+ 5")` with inner whitespace fails). -/
def pyInt (s : String) : Option Int :=
  match stripChars s.toList with
  | '+' :: ds => (natDigits ds).map Int.ofNat
  | '-' :: ds => (natDigits ds).map fun n => -(Int.ofNat n)
  | ds => (natDigits ds).map Int.ofNat

/-- digits interpreted as a decimal fraction: `"25"` ↦ `25/100` -/
def fracDigits (cs : List Char) : Option ℚ :=
  if cs.all Char.isDigit then
    some ((natDigits ('0' :: cs)).getD 0 / ((10 : ℚ) ^ cs.length))
  else none

/-- unsigned float body: `\d+ | \d+ . \d* | . \d+`-style, i.e. digits
and/or a decimal point with digits on at least one side. -/
def pyFloatBody (cs : List Char) : Option ℚ :=
  match cs.span Char.isDigit with
  | (intPart, []) => (natDigits intPart).map fun n => (n : ℚ)
  | (intPart, '.' :: fracPart) =>
      if intPart = [] ∧ fracPart = [] then none
      else do
        let ip := (natDigits ('0' :: intPart)).getD 0
        let fp ← fracDigits fracPart
        pure ((ip : ℚ) + fp)
  | _ => none

/-- Python `float(s)`: surrounding whitespace, optional sign, then a float
body, optionally a decimal exponent. -/
def pyFloat (s : String) : Option ℚ :=
  let signedBody : List Char → Option ℚ := fun cs =>
    match cs with
    | '+' :: rest => pyFloatBody rest
    | '-' :: rest => (pyFloatBody rest).map Neg.neg
    | rest => pyFloatBody rest
  match (stripChars s.toList).span (fun c => c ≠ 'e' ∧ c ≠ 'E') with
  | (mant, []) => signedBody mant
  | (mant, _ :: expPart) => do
      let m ← signedBody mant
      let e ← match expPart with
              | '+' :: ds => (natDigits ds).map Int.ofNat
              | '-' :: ds => (natDigits ds).map fun n => -(Int.ofNat n)
              | ds => (natDigits ds).map Int.ofNat
      pure (m * (10 : ℚ) ^ e)

/-! ## `range`, `np.arange`, `np.linspace` -/

/-- Python `list(range(start, stop, step))`; `step = 0` raises
`ValueError`. -/
def pythonRange (start stop step : Int) : Except PyExc (List Int) :=
  if step = 0 then .error .valueError
  else
    let n : Nat :=
      if step > 0 then
        if start ≥ stop then 0 else (stop - start - 1).toNat / step.toNat + 1
      else
        if stop ≥ start then 0 else (start - stop - 1).toNat / (-step).toNat + 1
    .ok ((List.range n).map fun i => start + i * step)

/-- floor of a rational -/
def ratFloor (q : ℚ) : Int := q.num.fdiv q.den

/-- ceiling of a rational -/
def ratCeil (q : ℚ) : Int := -(ratFloor (-q))

/-- truncation toward zero, as Python `int(float)` -/
def ratTrunc (q : ℚ) : Int := if q ≥ 0 then ratFloor q else -(ratFloor (-q))

/-- `np.arange(start, stop, step).tolist()`: `⌈(stop-start)/step⌉` values
`start + i*step`; a zero step raises `ZeroDivisionError`. -/
def npArange (start stop step : ℚ) : Except PyExc (List ℚ) :=
  if step = 0 then .error .zeroDivisionError
  else .ok ((List.range (ratCeil ((stop - start) / step)).toNat).map
    fun i => start + (i : ℚ) * step)

/-- `np.linspace(start, stop, num).tolist()` (endpoint included). -/
def npLinspace (start stop : ℚ) (num : Nat) : List ℚ :=
  if num = 0 then []
  else if num = 1 then [start]
  else (List.range num).map fun i => start + (i : ℚ) * (stop - start) / ((num - 1 : Nat) : ℚ)

/-! ## CSV field splitting

`[x.strip() for x in chain.from_iterable(csv.reader(StringIO(vals)))]`:
the text is split into lines, each line into comma-separated fields with
the standard double-quote rules, and the rows are flattened; every field is
then stripped. -/

/-- one CSV line into fields (excel dialect: `,` delimiter, `"` quote,
`""` escapes a quote inside a quoted section). -/
def csvLine (cs : List Char) (cur : List Char) (inQuotes : Bool) : List String :=
  match cs, inQuotes with
  | [], _ => [String.mk cur.reverse]
  | '"' :: '"' :: rest, true => csvLine rest ('"' :: cur) true
  | '"' :: rest, true => csvLine rest cur false
  | '"' :: rest, false => csvLine rest cur true
  | ',' :: rest, false => String.mk cur.reverse :: csvLine rest [] false
  | c :: rest, b => csvLine rest (c :: cur) b

/-- split a character list at newlines -/
def splitOnNl : List Char → List (List Char)
  | [] => [[]]
  | c :: rest =>
      match splitOnNl rest with
      | [] => [[c]]
      | h :: t => if c = '\n' then [] :: h :: t else (c :: h) :: t

/-- all CSV fields of the raw axis text, stripped, rows flattened; an empty
text (or a blank line) contributes no fields. -/
def csvStripFields (vals : String) : List String :=
  ((splitOnNl vals.toList).flatMap fun line =>
    if line = [] then [] else csvLine line [] false).map pyStrip

/-! ## itertools.permutations -/

/-- helper for `pyPermutations`, structurally recursive on a length bound -/
def pyPermsAux : Nat → List String → List (List String)
  | 0, _ => [[]]
  | n + 1, l =>
      (List.range l.length).flatMap fun i =>
        match l[i]? with
        | some x => (pyPermsAux n (l.eraseIdx i)).map fun rest => x :: rest
        | none => []

/-- `list(itertools.permutations(l))` in itertools order: the first element
is chosen in input order, the remainder keeps its relative order. -/
def pyPermutations (l : List String) : List (List String) :=
  pyPermsAux l.length l

/-! ## `process_axis` -/

/-- The value type an axis option declares (`int`, `float`, `str`, or the
dummy `str_permutations`). -/
inductive AxType
  | tInt
  | tFloat
  | tStr
  | tPerm
  deriving DecidableEq, Repr

/-- `int()` applied to a capture group; the group is always captured when
the pattern matched, and `int()` raises `ValueError` on a malformed
capture (e.g. whitespace between sign and digits). -/
def intOfCap (o : Option String) : Except PyExc Int :=
  match o with
  | some s => match pyInt s with
              | some n => .ok n
              | none => .error .valueError
  | none => .error .valueError

/-- `float()` applied to a capture group, as `intOfCap`. -/
def floatOfCap (o : Option String) : Except PyExc ℚ :=
  match o with
  | some s => match pyFloat s with
              | some q => .ok q
              | none => .error .valueError
  | none => .error .valueError

/-- `int(m.group(3)) if m.group(3) is not None else 1` -/
def stepOfCap (o : Option String) : Except PyExc Int :=
  match o with
  | some s => intOfCap (some s)
  | none => pure 1

/-- `float(m.group(3)) if m.group(3) is not None else 1` -/
def stepOfCapF (o : Option String) : Except PyExc ℚ :=
  match o with
  | some s => floatOfCap (some s)
  | none => pure 1

/-- One field of an int axis, lines 336-352 of the source: try `re_range`,
then `re_range_count`, else keep the field as a literal string (cast
later). -/
def expandIntField (val : String) : Except PyExc (List PyVal) :=
  match fullmatch re_range val, fullmatch re_range_count val with
  | some m, _ => do
      let start ← intOfCap m.g1
      let stop ← intOfCap m.g2          -- end = int(m.group(2)) + 1
      let step ← stepOfCap m.g3
      let r ← pythonRange start (stop + 1) step
      pure (r.map PyVal.vInt)
  | none, some mc => do
      let start ← intOfCap mc.g1
      let stop ← intOfCap mc.g2
      let num ← stepOfCap mc.g3
      pure ((npLinspace (start : ℚ) (stop : ℚ) num.toNat).map fun q => PyVal.vInt (ratTrunc q))
  | none, none => pure [PyVal.vStr val]

/-- One field of a float axis, lines 358-374 of the source: try
`re_range_float` (end bound `end + step`), then `re_range_count_float`,
else keep the field as a literal string (cast later). -/
def expandFloatField (val : String) : Except PyExc (List PyVal) :=
  match fullmatch re_range_float val, fullmatch re_range_count_float val with
  | some m, _ => do
      let start ← floatOfCap m.g1
      let stop ← floatOfCap m.g2
      let step ← stepOfCapF m.g3
      let r ← npArange start (stop + step) step
      pure (r.map PyVal.vFloat)
  | none, some mc => do
      let start ← floatOfCap mc.g1
      let stop ← floatOfCap mc.g2
      let num ← stepOfCap mc.g3                 -- int(mc.group(3))
      pure ((npLinspace start stop num.toNat).map PyVal.vFloat)
  | none, none => pure [PyVal.vStr val]

/-- `valslist = [opt.type(x) for x in valslist]`: the declared type applied
to each expanded element.  Combinations that do not arise in the program
(e.g. `str_permutations` of a non-tuple) are mapped to `TypeError`. -/
def pyCast (t : AxType) (v : PyVal) : Except PyExc PyVal :=
  match t, v with
  | .tInt, .vInt n => .ok (.vInt n)
  | .tInt, .vFloat q => .ok (.vInt (ratTrunc q))
  | .tInt, .vStr s => match pyInt s with
                      | some n => .ok (.vInt n)
                      | none => .error .valueError
  | .tFloat, .vFloat q => .ok (.vFloat q)
  | .tFloat, .vInt n => .ok (.vFloat (n : ℚ))
  | .tFloat, .vStr s => match pyFloat s with
                        | some q => .ok (.vFloat q)
                        | none => .error .valueError
  | .tStr, .vStr s => .ok (.vStr s)
  | .tPerm, .vTuple l => .ok (.vTuple l)    -- str_permutations is the identity
  | _, _ => .error .typeError

/-- Lines 331-380 of the source: CSV split + strip, per-type expansion of
each field in input order, then the final cast of every element. -/
def process_axis_vals (t : AxType) (vals : String) : Except PyExc (List PyVal) :=
  let valslist := csvStripFields vals
  match t with
  | .tInt => do
      let ext ← valslist.mapM expandIntField
      ext.flatten.mapM (pyCast .tInt)
  | .tFloat => do
      let ext ← valslist.mapM expandFloatField
      ext.flatten.mapM (pyCast .tFloat)
  | .tStr => (valslist.map PyVal.vStr).mapM (pyCast .tStr)
  | .tPerm => ((pyPermutations valslist).map PyVal.vTuple).mapM (pyCast .tPerm)

/-- An axis option as `process_axis` consumes it: its label, declared value
type and optional confirm validator.  The per-cell `apply` functions are
modelled separately where a claim needs them (`apply_prompt` below; the
checkpoint/hypernetwork/clip-skip applies are covered by the arbitrary
sweep body of the global-restoration model). -/
structure AxisOptionM where
  label : String
  typ : AxType
  confirm : Option (List PyVal → Except PyExc Unit)

/-- Lines 327-386 of the source.  The second component is ghost
instrumentation recording the argument of every confirm invocation, so
that "the validator runs once, on the full expanded sequence" is
observable. -/
def process_axis (opt : AxisOptionM) (vals : String) :
    Except PyExc (List PyVal) × List (List PyVal) :=
  if opt.label = "Nothing" then (.ok [.vInt 0], [])
  else
    match process_axis_vals opt.typ vals with
    | .error e => (.error e, [])
    | .ok l =>
        match opt.confirm with
        | none => (.ok l, [])
        | some f =>
            match f l with
            | .ok _ => (.ok l, [l])
            | .error e => (.error e, [l])

/-! ## The confirm validators (lines 72-111 of the source) -/

/-- `confirm_samplers`, over the host samplers map (its set of lowercase
keys); `x.lower()` on a non-string would raise `AttributeError`. -/
def confirm_samplers (samplers_map : List String) : List PyVal → Except PyExc Unit
  | [] => .ok ()
  | .vStr x :: rest =>
      if samplers_map.contains (pyLower x) then confirm_samplers samplers_map rest
      else .error (.runtimeError ("Unknown sampler: " ++ x))
  | _ :: _ => .error .attributeError

/-- `confirm_checkpoints`, over the host checkpoint lookup. -/
def confirm_checkpoints (find : String → Option String) : List PyVal → Except PyExc Unit
  | [] => .ok ()
  | .vStr x :: rest =>
      match find x with
      | some _ => confirm_checkpoints find rest
      | none => .error (.runtimeError ("Unknown checkpoint: " ++ x))
  | _ :: _ => .error .typeError

/-- `confirm_hypernetworks`, over the host hypernetwork lookup. -/
def confirm_hypernetworks (find : String → Option String) : List PyVal → Except PyExc Unit
  | [] => .ok ()
  | .vStr x :: rest =>
      if pyLower x = "" || pyLower x = "none" then confirm_hypernetworks find rest
      else match find x with
           | some _ => confirm_hypernetworks find rest
           | none => .error (.runtimeError ("Unknown hypernetwork: " ++ x))
  | _ :: _ => .error .attributeError

/-! ## `apply_prompt` (lines 31-36 of the source) -/

/-- Python `needle in hay` on strings. -/
def strContains (needle hay : String) : Bool :=
  decide (needle.toList <:+: hay.toList)

/-- Python `str.replace` with a non-empty pattern: leftmost,
non-overlapping.  Structurally recursive on a fuel that starts at the
string length (every step consumes at least one character, so the fuel
never runs out). -/
def replaceFuel (pat rep : List Char) : Nat → List Char → List Char
  | 0, s => s
  | _ + 1, [] => []
  | fuel + 1, c :: cs =>
      if pat.isPrefixOf (c :: cs) then rep ++ replaceFuel pat rep fuel (cs.drop (pat.length - 1))
      else c :: replaceFuel pat rep fuel cs

/-- Python `s.replace(pat, rep)` (an empty pattern inserts `rep` before
every character and at the end). -/
def pyReplace (s pat rep : String) : String :=
  match pat.toList with
  | [] => String.mk (rep.toList ++ s.toList.flatMap fun c => c :: rep.toList)
  | p :: pt => String.mk (replaceFuel (p :: pt) rep.toList s.toList.length s.toList)

/-- The prompt-holding part of the processing object. -/
structure ProcPrompt where
  prompt : String
  negative_prompt : String
  deriving DecidableEq, Repr

/-- `apply_prompt(p, x, xs)`: `xs[0]` is the search token; it must occur in
the positive or the negative prompt, else `RuntimeError`; both prompts
have every occurrence replaced by `x`. -/
def apply_prompt (p : ProcPrompt) (x : String) (xs : List String) : Except PyExc ProcPrompt :=
  match xs with
  | [] => .error .indexError
  | x0 :: _ =>
      if ¬ strContains x0 p.prompt ∧ ¬ strContains x0 p.negative_prompt then
        .error (.runtimeError ("Prompt S/R did not find " ++ x0 ++ " in prompt or negative prompt."))
      else
        .ok { prompt := pyReplace p.prompt x0 x,
              negative_prompt := pyReplace p.negative_prompt x0 x }

end MVar


namespace MVar

/-! ## The combination driver: `draw_crp_pages` (lines 174-271 of the source)

The driver is parametric in a host-state type `σ` threaded through the
render callback (`cell`) and the cooperative interrupt flag
(`state.interrupted`), and in the external grid-composition and annotation
collaborators.  A Python exception raised by `cell` is an `Except.error`
paired with the host state at the raise; note that in the source the
`cell(c, r, pg)` call at line 209 sits *outside* the `try` block, which
guards only the `processed.images[0]` dereference and the lone-image
aggregation. -/

/-- A cell image: its PIL mode and pixel size are all the driver ever
inspects. -/
structure Image where
  mode : String
  size : Nat × Nat
  deriving DecidableEq, Repr

/-- The fields of the host `Processed` object the driver reads or writes. -/
structure Processed where
  images : List Image
  all_prompts : List String
  all_seeds : List Int
  infotexts : List String
  prompt : String
  seed : Int
  deriving DecidableEq, Repr

/-- the `Processed()` constructed at line 269 of the source -/
def Processed.empty : Processed :=
  { images := [], all_prompts := [], all_seeds := [], infotexts := [], prompt := "", seed := 0 }

/-- External collaborators and flags of one driver invocation. -/
structure DrawEnv (σ : Type) where
  cell : PyVal → PyVal → PyVal → σ → Except PyExc Processed × σ
  interrupted : σ → Bool
  image_grid : List Image → Nat → Image
  draw_grid_annotations : Image → Nat → Nat → List String → List String → Image
  draw_legend : Bool
  include_lone_images : Bool

/-- The driver's loop-local variables (lines 198-202), plus the ghost field
`composedCounts` recording, per composed page, how many cell images were
handed to `images.image_grid` — pure instrumentation, it influences
nothing. -/
structure DrawSt where
  processed_result : Option Processed := none
  cell_mode : String := "P"
  cell_size : Nat × Nat := (1, 1)
  cache_images : List Image := []
  composedCounts : List Nat := []
  deriving Repr

/-- The `try` block, lines 211-235: dereference `processed.images[0]`
(an empty list raises, caught by the bare `except`, substituting a blank
placeholder of the current template mode/size); on the first success
capture the template; with `include_lone_images` append the lone image and
its prompt/seed/infotext (an empty `infotexts` raises during the last
append, after the first three appends took effect). -/
def tryBlock (include_lone : Bool) (st : DrawSt) (processed : Processed) : DrawSt × Image :=
  match processed.images with
  | [] => (st, Image.mk st.cell_mode st.cell_size)
  | pimg :: _ =>
      let st1 :=
        if st.processed_result.isNone then
          { st with
            processed_result := some { processed with
              images := [], all_prompts := [], all_seeds := [], infotexts := [] },
            cell_mode := pimg.mode, cell_size := pimg.size }
        else st
      if include_lone then
        match st1.processed_result with
        | none => (st1, pimg)    -- unreachable: just set above
        | some pr =>
            match processed.infotexts with
            | [] =>
                let pr2 := { pr with images := pr.images ++ [pimg],
                                     all_prompts := pr.all_prompts ++ [processed.prompt],
                                     all_seeds := pr.all_seeds ++ [processed.seed] }
                ({ st1 with processed_result := some pr2 },
                 Image.mk st1.cell_mode st1.cell_size)
            | it :: _ =>
                let pr2 := { pr with images := pr.images ++ [pimg],
                                     all_prompts := pr.all_prompts ++ [processed.prompt],
                                     all_seeds := pr.all_seeds ++ [processed.seed],
                                     infotexts := pr.infotexts ++ [it] }
                ({ st1 with processed_result := some pr2 }, pimg)
      else (st1, pimg)

/-- The innermost loop over column values (lines 206-241): render a cell,
run the `try` block, append the image to the cache, and break when the
interrupt flag is observed.  An exception from `cell` propagates. -/
def innerCols {σ : Type} (env : DrawEnv σ) (r pg : PyVal) :
    List PyVal → DrawSt → σ → Except PyExc DrawSt × σ
  | [], st, s => (.ok st, s)
  | c :: rest, st, s =>
      match env.cell c r pg s with
      | (.error e, s1) => (.error e, s1)
      | (.ok processed, s1) =>
          let (st1, img) := tryBlock env.include_lone_images st processed
          let st2 := { st1 with cache_images := st1.cache_images ++ [img] }
          if env.interrupted s1 then (.ok st2, s1)
          else innerCols env r pg rest st2 s1

/-- The middle loop over row values (lines 205-245): after an interrupted
inner loop, pad the cache with blank placeholders up to
`len(col_field_values) * len(row_field_values)` and break. -/
def rowLoop {σ : Type} (env : DrawEnv σ) (pg : PyVal) (cols : List PyVal) (nRows nCols : Nat) :
    List PyVal → DrawSt → σ → Except PyExc DrawSt × σ
  | [], st, s => (.ok st, s)
  | r :: rest, st, s =>
      match innerCols env r pg cols st s with
      | (.error e, s1) => (.error e, s1)
      | (.ok st1, s1) =>
          if env.interrupted s1 then
            let pad := List.replicate (nCols * nRows - st1.cache_images.length)
              (Image.mk st1.cell_mode st1.cell_size)
            (.ok { st1 with cache_images := st1.cache_images ++ pad }, s1)
          else rowLoop env pg cols nRows nCols rest st1 s1

/-- Page composition, lines 247-258: compose the cached images into a grid,
clear the cache (recording its size in the ghost field), and draw the
legend annotations; with more than one page the page label
`page_texts[ipg]` is drawn too (an out-of-range index raises
`IndexError`). -/
def composePage {σ : Type} (env : DrawEnv σ) (st : DrawSt) (nRows nPages ipg : Nat)
    (col_labels row_labels page_labels : List String) : Except PyExc Image × DrawSt :=
  let grid := env.image_grid st.cache_images nRows
  let st1 := { st with cache_images := [],
                       composedCounts := st.composedCounts ++ [st.cache_images.length] }
  if env.draw_legend then
    let g1 := env.draw_grid_annotations grid st.cell_size.1 st.cell_size.2 col_labels row_labels
    if nPages > 1 then
      match page_labels[ipg]? with
      | some lbl => (.ok (env.draw_grid_annotations g1 g1.size.1 g1.size.2 [lbl] [""]), st1)
      | none => (.error .indexError, st1)
    else (.ok g1, st1)
  else (.ok grid, st1)

/-- The outer loop over page values (lines 204-265): run the rows, compose
the page, positionally insert the grid (and blank prompt/seed/infotext)
into the aggregate result at the page index — on `processed_result` still
`None` this dereference raises `AttributeError` — and break when the
interrupt flag is observed.  Returns the loop state and `ipg + 1` of the
last page iterated. -/
def pageLoop {σ : Type} (env : DrawEnv σ) (cols rows : List PyVal)
    (col_labels row_labels page_labels : List String) (nPages : Nat) :
    List PyVal → Nat → DrawSt → σ → Except PyExc (DrawSt × Nat) × σ
  | [], ipg, st, s => (.ok (st, ipg), s)
  | pg :: rest, ipg, st, s =>
      match rowLoop env pg cols rows.length cols.length rows st s with
      | (.error e, s1) => (.error e, s1)
      | (.ok st1, s1) =>
          match composePage env st1 rows.length nPages ipg col_labels row_labels page_labels with
          | (.error e, _) => (.error e, s1)
          | (.ok grid, st2) =>
              match st2.processed_result with
              | none => (.error .attributeError, s1)
              | some pr =>
                  let pr2 := { pr with
                    images := pr.images.insertIdx ipg grid,
                    all_prompts := pr.all_prompts.insertIdx ipg "",
                    all_seeds := pr.all_seeds.insertIdx ipg (-1),
                    infotexts := pr.infotexts.insertIdx ipg "" }
                  let st3 := { st2 with processed_result := some pr2 }
                  if env.interrupted s1 then (.ok (st3, ipg + 1), s1)
                  else pageLoop env cols rows col_labels row_labels page_labels nPages rest (ipg + 1) st3 s1

/-- `draw_crp_pages`, lines 174-271 of the source.  On success the result
carries the aggregate `Processed`, the page count, and the ghost list of
per-page composed-image counts.  (The `state.job`/`state.job_count`
progress strings are not modelled.) -/
def draw_crp_pages {σ : Type} (env : DrawEnv σ)
    (row_field_values col_field_values page_field_values : List PyVal)
    (col_labels row_labels page_labels : List String) (s : σ) :
    Except PyExc (Processed × Nat × List Nat) × σ :=
  match pageLoop env col_field_values row_field_values col_labels row_labels page_labels
      page_field_values.length page_field_values 0 {} s with
  | (.error e, s1) => (.error e, s1)
  | (.ok (st, n), s1) =>
      match st.processed_result with
      | none => (.ok (Processed.empty, 0, st.composedCounts), s1)
      | some pr => (.ok (pr, n, st.composedCounts), s1)

/-! ## Seed fixing (lines 397-406 of the source)

`random.randrange(4294967294)` is modelled by an arbitrary draw stream
`rng : Nat → Nat` consumed at an explicit cursor `k`; draw `k` yields
`rng k % 4294967294`, and each replacement advances the cursor, so the
replacements consume pairwise distinct draws. -/

/-- `val is None or val == \x27\x27 or val == -1` -/
def isSeedSentinel (v : PyVal) : Bool :=
  v = .vNone || v = .vStr "" || v = .vInt (-1)

def fix_axis_seeds_go (rng : Nat → Nat) : List PyVal → Nat → List PyVal × Nat
  | [], k => ([], k)
  | v :: rest, k =>
      if isSeedSentinel v then
        let (tl, kf) := fix_axis_seeds_go rng rest (k + 1)
        (PyVal.vInt (Int.ofNat (rng k % 4294967294)) :: tl, kf)
      else
        let (tl, kf) := fix_axis_seeds_go rng rest k
        (v :: tl, kf)

/-- `fix_axis_seeds(axis_opt, axis_list)`: on a `Seed` or `Var. seed` axis
replace every sentinel value by a fresh draw in `[0, 4294967294)`; leave
every other axis untouched. -/
def fix_axis_seeds (label : String) (rng : Nat → Nat) (axis_list : List PyVal) (k : Nat) :
    List PyVal × Nat :=
  if label = "Seed" || label = "Var. seed" then fix_axis_seeds_go rng axis_list k
  else (axis_list, k)

/-! ## `Script.run` (lines 319-449 of the source)

The model covers the pipeline the claims are about: the three axis
expansions (each of which can raise, before any rendering), the seed
fixing, and the driver call.  The render-call counter is ghost
instrumentation: the host state is extended with a `Nat` that the `cell`
wrapper bumps on every invocation.  External progress reporting
(`total_steps`, `total_tqdm`), `fix_seed(p)`, `opts.return_grid`, and grid
persistence are host collaborators that render nothing and are not
modelled; the surrounding `SharedSettingsStackHelper` wrapper is modelled
separately below. -/

/-- Lift a driver environment to one threading a render-call counter. -/
def countingEnv {σ : Type} (env : DrawEnv σ) : DrawEnv (σ × Nat) where
  cell := fun c r pg sn =>
    let (res, s1) := env.cell c r pg sn.1
    (res, (s1, sn.2 + 1))
  interrupted := fun sn => env.interrupted sn.1
  image_grid := env.image_grid
  draw_grid_annotations := env.draw_grid_annotations
  draw_legend := env.draw_legend
  include_lone_images := env.include_lone_images

/-- `Script.run`: expand (and confirm) the column, row and page axes in
that order — any exception aborts before the driver starts — then fix
seeds unless `no_fixed_seeds`, then run the driver.  The last component of
the result is the number of render calls performed. -/
def Script_run {σ : Type} (env : DrawEnv σ) (colOpt rowOpt pgOpt : AxisOptionM)
    (colFmt rowFmt pgFmt : PyVal → String) (colT rowT pgT : String)
    (no_fixed_seeds : Bool) (rng : Nat → Nat) (s : σ) :
    Except PyExc (Processed × Nat) × σ × Nat :=
  match (process_axis colOpt colT).1 with
  | .error e => (.error e, s, 0)
  | .ok colVals0 =>
      match (process_axis rowOpt rowT).1 with
      | .error e => (.error e, s, 0)
      | .ok rowVals0 =>
          match (process_axis pgOpt pgT).1 with
          | .error e => (.error e, s, 0)
          | .ok pgVals0 =>
              let (colVals, k1) :=
                if no_fixed_seeds then (colVals0, 0)
                else fix_axis_seeds colOpt.label rng colVals0 0
              let (rowVals, k2) :=
                if no_fixed_seeds then (rowVals0, k1)
                else fix_axis_seeds rowOpt.label rng rowVals0 k1
              let (pgVals, _) :=
                if no_fixed_seeds then (pgVals0, k2)
                else fix_axis_seeds pgOpt.label rng pgVals0 k2
              match draw_crp_pages (countingEnv env) rowVals colVals pgVals
                  (colVals.map colFmt) (rowVals.map rowFmt) (pgVals.map pgFmt) (s, 0) with
              | (.error e, (s1, n)) => (.error e, s1, n)
              | (.ok (pr, cnt, _), (s1, n)) => (.ok (pr, cnt), s1, n)

/-! ## `SharedSettingsStackHelper` (lines 273-285 of the source)

The shared global render configuration.  `opts.sd_hypernetwork` is the
hypernetwork *setting*; `loaded_hypernetwork` is the currently active one,
set by `hypernetwork.load_hypernetwork` (which is what the per-cell
`apply_hypernetwork` calls); the host keeps them in correspondence between
sweeps.  `other` stands for unrelated shared state the helper does not
touch.  `hypernetwork.apply_strength()` resets the strength from its
option and is outside the three configuration items the claims name. -/

structure GlobalCfg where
  sd_model : Nat
  loaded_hypernetwork : Option String
  sd_hypernetwork_opt : String
  CLIP_stop_at_last_layers : Int
  other : Nat
  deriving DecidableEq, Repr

/-- What `__enter__` stores on `self`. -/
structure SettingsSnapshot where
  CLIP_stop_at_last_layers : Int
  hypernetwork : String
  model : Nat
  deriving DecidableEq, Repr

/-- `__enter__`: snapshot clip-skip, the hypernetwork option, and the
model. -/
def SharedSettingsStackHelper_enter (g : GlobalCfg) : SettingsSnapshot :=
  { CLIP_stop_at_last_layers := g.CLIP_stop_at_last_layers,
    hypernetwork := g.sd_hypernetwork_opt,
    model := g.sd_model }

/-- `__exit__`: `reload_model_weights(self.model)`,
`load_hypernetwork(self.hypernetwork)` (through the host lookup), and
restore `opts.data["CLIP_stop_at_last_layers"]`. -/
def SharedSettingsStackHelper_exit (load_hypernetwork : String → Option String)
    (snap : SettingsSnapshot) (g : GlobalCfg) : GlobalCfg :=
  { g with sd_model := snap.model,
           loaded_hypernetwork := load_hypernetwork snap.hypernetwork,
           CLIP_stop_at_last_layers := snap.CLIP_stop_at_last_layers }

/-- The `with SharedSettingsStackHelper():` block of `Script.run` (lines
431-443): `__enter__` snapshots, the body runs — completing normally,
completing after a cooperative interrupt, or raising — and `__exit__` runs
unconditionally (a body exception is re-raised afterwards, since
`__exit__` returns `None`). -/
def withSharedSettings {A : Type} (load_hypernetwork : String → Option String)
    (body : GlobalCfg → Except PyExc A × GlobalCfg) (g : GlobalCfg) :
    Except PyExc A × GlobalCfg :=
  let snap := SharedSettingsStackHelper_enter g
  let (res, g1) := body g
  (res, SharedSettingsStackHelper_exit load_hypernetwork snap g1)

end MVar


namespace MVar

/-! ## Concrete host collaborators and inputs used by the closed theorems -/

/-- a concrete grid compositor: records how many images it was given -/
def gridStub : List Image → Nat → Image := fun imgs rows => Image.mk "grid" (imgs.length, rows)

/-- a concrete annotation collaborator -/
def annotStub : Image → Nat → Nat → List String → List String → Image := fun g _ _ _ _ => g

/-- a render result with one 4×4 RGB image -/
def procOne : Processed :=
  { images := [Image.mk "RGB" (4, 4)], all_prompts := ["p"], all_seeds := [5],
    infotexts := ["it"], prompt := "p", seed := 5 }

/-- a render result with no images (e.g. the host was stopped) -/
def procNoImages : Processed :=
  { images := [], all_prompts := [], all_seeds := [], infotexts := [], prompt := "p", seed := 5 }

/-- the `Prompt S/R` registry entry (line 158 of the source): type `str`,
no confirm validator -/
def promptSROpt : AxisOptionM := { label := "Prompt S/R", typ := .tStr, confirm := none }

/-- the `Nothing` registry entry (line 152) -/
def nothingOpt : AxisOptionM := { label := "Nothing", typ := .tStr, confirm := none }

/-- the `Sampler` registry entry (line 160), over a host samplers map -/
def samplerOpt (samplers_map : List String) : AxisOptionM :=
  { label := "Sampler", typ := .tStr, confirm := some (confirm_samplers samplers_map) }

/-- the `Seed` registry entry (line 153) -/
def seedOpt : AxisOptionM := { label := "Seed", typ := .tInt, confirm := none }

/-- the `Steps` registry entry (line 156) -/
def stepsOpt : AxisOptionM := { label := "Steps", typ := .tInt, confirm := none }

/-- the `CFG Scale` registry entry (line 157) -/
def cfgScaleOpt : AxisOptionM := { label := "CFG Scale", typ := .tFloat, confirm := none }

/-- a sweep body that swaps model, hypernetwork and clip-skip and then
raises -/
def c1Body : GlobalCfg → Except PyExc Unit × GlobalCfg := fun g =>
  (.error (.runtimeError "boom"),
   { g with sd_model := 99, loaded_hypernetwork := some "other",
            CLIP_stop_at_last_layers := 12, other := g.other + 1 })

/-- a global configuration satisfying the host invariant -/
def c1G : GlobalCfg :=
  { sd_model := 1, loaded_hypernetwork := some "hn", sd_hypernetwork_opt := "hn-setting",
    CLIP_stop_at_last_layers := 2, other := 0 }

/-- how many sentinel values precede index `i` of the list -/
def sentinelsBefore (vals : List PyVal) (i : Nat) : Nat :=
  ((vals.take i).filter isSeedSentinel).length

/-- a driver environment whose render callback always succeeds -/
def plainEnv : DrawEnv Unit :=
  { cell := fun _ _ _ s => (.ok procOne, s), interrupted := fun _ => false,
    image_grid := gridStub, draw_grid_annotations := annotStub,
    draw_legend := false, include_lone_images := false }

/-- a driver environment whose render callback raises -/
def envRenderRaises : DrawEnv Unit :=
  { cell := fun _ _ _ s => (.error (.runtimeError "render failed"), s),
    interrupted := fun _ => false, image_grid := gridStub,
    draw_grid_annotations := annotStub, draw_legend := false, include_lone_images := false }

/-- a driver environment whose render callback returns a result with no
images -/
def envNoImagesCell : DrawEnv Unit :=
  { cell := fun _ _ _ s => (.ok procNoImages, s), interrupted := fun _ => false,
    image_grid := gridStub, draw_grid_annotations := annotStub,
    draw_legend := false, include_lone_images := false }

/-- the expected aggregate result of the 1-page, 1-row, 2-column sweep
used in the C5 witness -/
def prGrid2 : Processed :=
  { images := [Image.mk "grid" (2, 1)], all_prompts := [""], all_seeds := [-1],
    infotexts := [""], prompt := "p", seed := 5 }

/-- a driver environment whose render always succeeds but raises the
interrupt flag during the first cell -/
def envSelfInterrupt : DrawEnv Bool :=
  { cell := fun _ _ _ _ => (.ok procOne, true), interrupted := fun b => b,
    image_grid := gridStub, draw_grid_annotations := annotStub,
    draw_legend := false, include_lone_images := false }

/-- regexes with no capturing groups -/
def groupFree : RE → Prop
  | .eps => True
  | .cls _ => True
  | .starCls _ => True
  | .cat a b => groupFree a ∧ groupFree b
  | .alt a b => groupFree a ∧ groupFree b
  | .group _ _ => False

end MVar

namespace MVar

/-! ## Theorems -/

/-- **C1**: for every sweep invocation, the shared global render
configuration (active model checkpoint, active hypernetwork, CLIP
layer-skip count) observed after the `with SharedSettingsStackHelper()`
block of `Script.run` equals the configuration observed before it, on
every exit path — the body is arbitrary (it may swap
checkpoint/hypernetwork/clip-skip per cell) and may end in a normal or
interrupted completion (`.ok`) or a propagated exception (`.error`).
Hypothesis: on entry the loaded hypernetwork corresponds to the
`opts.sd_hypernetwork` setting (the host invariant between sweeps), since
`__exit__` restores the active hypernetwork by reloading from that
setting. -/
theorem C1_global_config_restored {A : Type} (load_hypernetwork : String → Option String)
    (body : GlobalCfg → Except PyExc A × GlobalCfg) (g : GlobalCfg)
    (hloaded : g.loaded_hypernetwork = load_hypernetwork g.sd_hypernetwork_opt) :
    (withSharedSettings load_hypernetwork body g).2.sd_model = g.sd_model ∧
    (withSharedSettings load_hypernetwork body g).2.loaded_hypernetwork = g.loaded_hypernetwork ∧
    (withSharedSettings load_hypernetwork body g).2.CLIP_stop_at_last_layers =
      g.CLIP_stop_at_last_layers := by
  simp [withSharedSettings, SharedSettingsStackHelper_enter, SharedSettingsStackHelper_exit,
    hloaded]

/-- Witness for C1 at a concrete configuration and a body that mutates all
three configuration items and raises. -/
theorem C1_witness :
    (withSharedSettings (fun _ => some "hn") c1Body c1G).2.sd_model = c1G.sd_model ∧
    (withSharedSettings (fun _ => some "hn") c1Body c1G).2.loaded_hypernetwork =
      c1G.loaded_hypernetwork ∧
    (withSharedSettings (fun _ => some "hn") c1Body c1G).2.CLIP_stop_at_last_layers =
      c1G.CLIP_stop_at_last_layers :=
  C1_global_config_restored (fun _ => some "hn") c1Body c1G rfl

/-- **C2 counterexample**: the claim says expanding the raw int field
`"1-5(2)"` yields `[1,3,5]`; in fact the step group of `re_range` requires
an explicit sign (`([+-]\d+)`), the field matches neither range grammar,
falls through to scalar parsing, and `int("1-5(2)")` raises
`ValueError`. -/
theorem C2_counterexample :
    process_axis_vals AxType.tInt "1-5(2)" = Except.error PyExc.valueError := by
  rfl

/-- helper: the step branch of `expandIntField`, lines 339-344 of the
source: a field matching `re_range` expands to
`range(start, end + 1, step)`. -/
theorem expandIntField_step (s : String) (m : Caps) (a b st : Int)
    (h : fullmatch re_range s = some m)
    (h1 : intOfCap m.g1 = .ok a) (h2 : intOfCap m.g2 = .ok b)
    (h3 : stepOfCap m.g3 = .ok st) :
    expandIntField s = (pythonRange a (b + 1) st).map fun l => l.map PyVal.vInt := by
  unfold expandIntField
  rw [h]
  simp only [bind, Except.bind, h1, h2, h3]
  cases hr : pythonRange a (b + 1) st <;> simp [hr, Except.map, pure, Except.pure]

/-- **C2 (amended)**: `"1-5"` expands to `[1,2,3,4,5]` (step defaults to 1
when the parenthesized step is omitted), `"1-5(+2)"` — the step carries
the explicit sign the grammar requires — expands to `[1,3,5]`, and in
general a field matching `START-END(±STEP)` expands to
`range(START, END+1, STEP)`, i.e. the arithmetic sequence from START to
END inclusive with the given step. -/
theorem C2_step_range_expansion :
    process_axis_vals AxType.tInt "1-5" =
      .ok [.vInt 1, .vInt 2, .vInt 3, .vInt 4, .vInt 5] ∧
    process_axis_vals AxType.tInt "1-5(+2)" = .ok [.vInt 1, .vInt 3, .vInt 5] ∧
    ∀ (s : String) (m : Caps) (a b st : Int),
      fullmatch re_range s = some m →
      intOfCap m.g1 = .ok a → intOfCap m.g2 = .ok b → stepOfCap m.g3 = .ok st →
      expandIntField s = (pythonRange a (b + 1) st).map fun l => l.map PyVal.vInt :=
  ⟨by rfl, by rfl, expandIntField_step⟩

/-- Witness for C2: the general step-branch clause applied at
`"1-5(+2)"`. -/
theorem C2_witness :
    expandIntField "1-5(+2)" = (pythonRange 1 (5 + 1) 2).map fun l => l.map PyVal.vInt :=
  C2_step_range_expansion.2.2 "1-5(+2)" ⟨some "1", some "5", some "+2"⟩ 1 5 2 rfl rfl rfl rfl

end MVar

namespace MVar

/-- **C3 counterexample**: the claim says expanding the raw float field
`"0-1(0.5)"` yields `[0.0, 0.5, 1.0]`; in fact the step group of
`re_range_float` requires an explicit sign, the field matches neither
float grammar, falls through to scalar parsing, and `float("0-1(0.5)")`
raises `ValueError`. -/
theorem C3_counterexample :
    process_axis_vals AxType.tFloat "0-1(0.5)" = Except.error PyExc.valueError := by
  rfl

/-- helper: the step branch of `expandFloatField`, lines 361-366 of the
source: a field matching `re_range_float` expands to
`np.arange(start, end + step, step)` — the `END+STEP` end bound. -/
theorem expandFloatField_step (s : String) (m : Caps) (a b st : ℚ)
    (h : fullmatch re_range_float s = some m)
    (h1 : floatOfCap m.g1 = .ok a) (h2 : floatOfCap m.g2 = .ok b)
    (h3 : stepOfCapF m.g3 = .ok st) :
    expandFloatField s = (npArange a (b + st) st).map fun l => l.map PyVal.vFloat := by
  unfold expandFloatField
  rw [h]
  simp only [bind, Except.bind, h1, h2, h3]
  cases hr : npArange a (b + st) st <;> simp [hr, Except.map, pure, Except.pure]

/-- `float("0")` is `0.0` (the parse builds the value through `Nat` casts,
reduced here to the numeral). -/
theorem pyFloat_zero : pyFloat "0" = some (0 : ℚ) := by
  have h : pyFloat "0" = some ((0 : Nat) : ℚ) := rfl
  rw [h]; norm_num

/-- `float("1")` is `1.0`. -/
theorem pyFloat_one : pyFloat "1" = some (1 : ℚ) := by
  have h : pyFloat "1" = some ((1 : Nat) : ℚ) := rfl
  rw [h]; norm_num

/-- `float("+0.5")` is `0.5`. -/
theorem pyFloat_half : pyFloat "+0.5" = some (1 / 2 : ℚ) := by
  have h : pyFloat "+0.5" = some (((0 : Nat) : ℚ) + ((5 : Nat) : ℚ) / (10 : ℚ) ^ (1 : Nat)) := rfl
  rw [h]; norm_num

theorem floatOfCap_zero : floatOfCap (some "0") = .ok (0 : ℚ) := by
  simp [floatOfCap, pyFloat_zero]

theorem floatOfCap_one : floatOfCap (some "1") = .ok (1 : ℚ) := by
  simp [floatOfCap, pyFloat_one]

theorem stepOfCapF_half : stepOfCapF (some "+0.5") = .ok (1 / 2 : ℚ) := by
  simp [stepOfCapF, floatOfCap, pyFloat_half]

theorem ratFloor_intCast (n : Int) : ratFloor (n : ℚ) = n := by
  unfold ratFloor
  simp

theorem ratCeil_intCast (n : Int) : ratCeil (n : ℚ) = n := by
  unfold ratCeil
  rw [← Int.cast_neg, ratFloor_intCast]
  omega

/-- `np.arange(0, 1.5, 0.5)` is `[0.0, 0.5, 1.0]`. -/
theorem npArange_half : npArange 0 (1 + 1 / 2) (1 / 2) = .ok [0, 1 / 2, 1] := by
  unfold npArange
  rw [if_neg (by norm_num)]
  have h3 : ((1 + 1 / 2 - 0) / (1 / 2) : ℚ) = ((3 : Int) : ℚ) := by norm_num
  rw [h3, ratCeil_intCast]
  rw [show List.range (Int.toNat 3) = [0, 1, 2] from rfl]
  norm_num

/-- `"0-1(+0.5)"` expands to `[0.0, 0.5, 1.0]`. -/
theorem expandFloat_inclusive :
    expandFloatField "0-1(+0.5)" = .ok [.vFloat 0, .vFloat (1 / 2), .vFloat 1] := by
  rw [expandFloatField_step "0-1(+0.5)" ⟨some "0", some "1", some "+0.5"⟩ 0 1 (1 / 2) rfl
    floatOfCap_zero floatOfCap_one stepOfCapF_half, npArange_half]
  rfl

/-- `"0-1(+0.5)"` through the whole float branch of `process_axis`. -/
theorem process_axis_float_inclusive :
    process_axis_vals AxType.tFloat "0-1(+0.5)" =
      .ok [.vFloat 0, .vFloat (1 / 2), .vFloat 1] := by
  have h : process_axis_vals AxType.tFloat "0-1(+0.5)" =
      (do
        let ext ← (csvStripFields "0-1(+0.5)").mapM expandFloatField
        ext.flatten.mapM (pyCast .tFloat)) := rfl
  rw [h, show csvStripFields "0-1(+0.5)" = ["0-1(+0.5)"] from rfl]
  simp only [List.mapM_cons, List.mapM_nil, expandFloat_inclusive]
  rfl

/-- **C3 (amended)**: `"0-1(+0.5)"` — the step carries the explicit sign
the grammar requires — expands to `[0.0, 0.5, 1.0]`, inclusive of the END
endpoint, and in general a matched float step-range expands with
`END+STEP` as the `np.arange` end bound, which is what guarantees the
inclusivity. -/
theorem C3_float_step_range :
    process_axis_vals AxType.tFloat "0-1(+0.5)" =
      .ok [.vFloat 0, .vFloat (1 / 2), .vFloat 1] ∧
    ∀ (s : String) (m : Caps) (a b st : ℚ),
      fullmatch re_range_float s = some m →
      floatOfCap m.g1 = .ok a → floatOfCap m.g2 = .ok b → stepOfCapF m.g3 = .ok st →
      expandFloatField s = (npArange a (b + st) st).map fun l => l.map PyVal.vFloat :=
  ⟨process_axis_float_inclusive, expandFloatField_step⟩

/-- Witness for C3: the general clause applied at `"0-1(+0.5)"`. -/
theorem C3_witness :
    expandFloatField "0-1(+0.5)" =
      (npArange 0 (1 + 1 / 2) (1 / 2)).map fun l => l.map PyVal.vFloat :=
  C3_float_step_range.2 "0-1(+0.5)" ⟨some "0", some "1", some "+0.5"⟩ 0 1 (1 / 2) rfl
    floatOfCap_zero floatOfCap_one stepOfCapF_half

/-- **C7 counterexample**: the claim says a search token absent from both
prompts is rejected eagerly during axis expansion/confirmation; in fact
the `Prompt S/R` registry entry declares no confirm validator, so
expansion of `"horse, pony"` succeeds (no validator is invoked) even
though `"horse"` occurs in neither prompt of the request — the
`RuntimeError` only surfaces later, when `apply_prompt` runs for a
cell. -/
theorem C7_counterexample :
    (process_axis promptSROpt "horse, pony").1 = .ok [.vStr "horse", .vStr "pony"] ∧
    (process_axis promptSROpt "horse, pony").2 = [] ∧
    apply_prompt ⟨"a cat", ""⟩ "pony" ["horse", "pony"] =
      .error (.runtimeError "Prompt S/R did not find horse in prompt or negative prompt.") := by
  refine ⟨by rfl, by rfl, by rfl⟩

/-- **C7 (amended)**: replacing token `"cat"` with `"dog"` in prompt
`"a cat"` yields `"a dog"`, the replacement applying to both the positive
and the negative prompt; a token found in neither prompt raises a
`RuntimeError` when the axis value is applied to a cell (at the first
per-cell application, before that cell is rendered), not during axis
expansion/confirmation — the `Prompt S/R` option declares no confirm
validator, so no validator runs during expansion. -/
theorem C7_prompt_search_replace :
    apply_prompt ⟨"a cat", "bad cat"⟩ "dog" ["cat", "dog"] = .ok ⟨"a dog", "bad dog"⟩ ∧
    (∀ (p : ProcPrompt) (x x0 : String) (rest : List String),
      (strContains x0 p.prompt || strContains x0 p.negative_prompt) = true →
      apply_prompt p x (x0 :: rest) =
        .ok ⟨pyReplace p.prompt x0 x, pyReplace p.negative_prompt x0 x⟩) ∧
    (∀ (p : ProcPrompt) (x x0 : String) (rest : List String),
      strContains x0 p.prompt = false → strContains x0 p.negative_prompt = false →
      apply_prompt p x (x0 :: rest) =
        .error (.runtimeError
          ("Prompt S/R did not find " ++ x0 ++ " in prompt or negative prompt."))) ∧
    promptSROpt.confirm = none ∧
    (∀ t : String, (process_axis promptSROpt t).2 = []) := by
  refine ⟨by rfl, ?_, ?_, rfl, ?_⟩
  · intro p x x0 rest h
    unfold apply_prompt
    rcases Bool.or_eq_true_iff.mp h with h1 | h1 <;> simp [h1]
  · intro p x x0 rest h1 h2
    unfold apply_prompt
    simp [h1, h2]
  · intro t
    unfold process_axis
    simp only [promptSROpt]
    cases process_axis_vals AxType.tStr t <;> simp

/-- Witness for C7's general clauses at concrete prompts. -/
theorem C7_witness :
    apply_prompt ⟨"a cat", ""⟩ "dog" ["cat", "dog"] =
      .ok ⟨pyReplace "a cat" "cat" "dog", pyReplace "" "cat" "dog"⟩ ∧
    apply_prompt ⟨"a cat", ""⟩ "pony" ["horse"] =
      .error (.runtimeError
        ("Prompt S/R did not find " ++ "horse" ++ " in prompt or negative prompt.")) :=
  ⟨C7_prompt_search_replace.2.1 ⟨"a cat", ""⟩ "dog" "cat" ["dog"] (by rfl),
   C7_prompt_search_replace.2.2.1 ⟨"a cat", ""⟩ "pony" "horse" [] (by rfl) (by rfl)⟩

/-! ### C9: seed fixing -/

/-- unfolding of `fix_axis_seeds_go` on a sentinel head -/
theorem fix_go_cons_pos (rng : Nat → Nat) (w : PyVal) (rest : List PyVal) (k : Nat)
    (hw : isSeedSentinel w = true) :
    fix_axis_seeds_go rng (w :: rest) k =
      (PyVal.vInt (Int.ofNat (rng k % 4294967294)) :: (fix_axis_seeds_go rng rest (k + 1)).1,
       (fix_axis_seeds_go rng rest (k + 1)).2) := by
  simp [fix_axis_seeds_go, hw]

/-- unfolding of `fix_axis_seeds_go` on a non-sentinel head -/
theorem fix_go_cons_neg (rng : Nat → Nat) (w : PyVal) (rest : List PyVal) (k : Nat)
    (hw : ¬ isSeedSentinel w = true) :
    fix_axis_seeds_go rng (w :: rest) k =
      (w :: (fix_axis_seeds_go rng rest k).1, (fix_axis_seeds_go rng rest k).2) := by
  simp [fix_axis_seeds_go, hw]

/-- Index-wise specification of `fix_axis_seeds_go`: sentinel values are
replaced by the draw at cursor `k +` (number of sentinels before the
position); other values pass through. -/
theorem fix_go_spec (rng : Nat → Nat) :
    ∀ (vals : List PyVal) (k : Nat),
      (fix_axis_seeds_go rng vals k).1.length = vals.length ∧
      ∀ (i : Nat) (v : PyVal), vals[i]? = some v →
        (fix_axis_seeds_go rng vals k).1[i]? =
          some (if isSeedSentinel v then
                  PyVal.vInt (Int.ofNat (rng (k + sentinelsBefore vals i) % 4294967294))
                else v) := by
  intro vals
  induction vals with
  | nil => intro k; exact ⟨rfl, by intro i v h; simp at h⟩
  | cons w rest ih =>
      intro k
      by_cases hw : isSeedSentinel w
      · rw [fix_go_cons_pos rng w rest k hw]
        refine ⟨by simp [(ih (k + 1)).1], ?_⟩
        intro i v h
        cases i with
        | zero =>
            simp only [List.getElem?_cons_zero, Option.some.injEq] at h
            subst h
            simp [hw, sentinelsBefore]
        | succ j =>
            simp only [List.getElem?_cons_succ] at h
            have hrec := (ih (k + 1)).2 j v h
            have hb : sentinelsBefore (w :: rest) (j + 1) = sentinelsBefore rest j + 1 := by
              simp [sentinelsBefore, List.take_succ_cons, List.filter_cons, hw]
            have hk : k + (sentinelsBefore rest j + 1) = k + 1 + sentinelsBefore rest j := by
              omega
            simp only [List.getElem?_cons_succ, hrec, hb, hk]
      · rw [fix_go_cons_neg rng w rest k hw]
        refine ⟨by simp [(ih k).1], ?_⟩
        intro i v h
        cases i with
        | zero =>
            simp only [List.getElem?_cons_zero, Option.some.injEq] at h
            subst h
            simp [hw]
        | succ j =>
            simp only [List.getElem?_cons_succ] at h
            have hrec := (ih k).2 j v h
            have hb : sentinelsBefore (w :: rest) (j + 1) = sentinelsBefore rest j := by
              simp [sentinelsBefore, List.take_succ_cons, List.filter_cons, hw]
            simp only [List.getElem?_cons_succ, hrec, hb]

/-- **C9**: when unfixed seeds are not kept, `fix_axis_seeds` replaces
every `None`/`""`/`-1` value of a `Seed` or `Var. seed` axis by a freshly
drawn integer in `[0, 2^32 − 2)` — each replacement consuming its own
draw from the stream, at pairwise distinct cursors — while non-sentinel
values, and the whole list of any other axis, pass through unchanged. -/
theorem C9_seed_fixing (rng : Nat → Nat) :
    (∀ (label : String) (vals : List PyVal) (k : Nat),
      label ≠ "Seed" → label ≠ "Var. seed" →
      fix_axis_seeds label rng vals k = (vals, k)) ∧
    (∀ (label : String) (vals : List PyVal) (k : Nat),
      (label = "Seed" ∨ label = "Var. seed") →
      (fix_axis_seeds label rng vals k).1.length = vals.length ∧
      ∀ (i : Nat) (v : PyVal), vals[i]? = some v →
        (fix_axis_seeds label rng vals k).1[i]? =
          some (if isSeedSentinel v then
                  PyVal.vInt (Int.ofNat (rng (k + sentinelsBefore vals i) % 4294967294))
                else v)) ∧
    (∀ j : Nat, (0 : Int) ≤ Int.ofNat (rng j % 4294967294) ∧
      (Int.ofNat (rng j % 4294967294) : Int) < 2 ^ 32 - 2) := by
  refine ⟨?_, ?_, ?_⟩
  · intro label vals k h1 h2
    simp [fix_axis_seeds, h1, h2]
  · intro label vals k h
    have hl : (label = "Seed" || label = "Var. seed") = true := by
      rcases h with h | h <;> simp [h]
    rw [fix_axis_seeds, if_pos hl]
    exact fix_go_spec rng vals k
  · intro j
    refine ⟨Int.ofNat_nonneg _, ?_⟩
    have hm : rng j % 4294967294 < 4294967294 := Nat.mod_lt _ (by norm_num)
    have h2 : ((2 : Int) ^ 32 - 2) = (4294967294 : Int) := by norm_num
    rw [show (Int.ofNat (rng j % 4294967294)) = ((rng j % 4294967294 : Nat) : Int) from rfl, h2]
    omega

/-- Witness for C9 at a concrete seed axis holding all three sentinel
shapes and one ordinary value, and at a non-seed axis. -/
theorem C9_witness :
    fix_axis_seeds "Steps" (fun n => n + 100) [PyVal.vInt (-1)] 0 = ([PyVal.vInt (-1)], 0) ∧
    (fix_axis_seeds "Seed" (fun n => n + 100)
        [PyVal.vInt (-1), PyVal.vInt 7, PyVal.vStr "", PyVal.vNone] 0).1[2]? =
      some (PyVal.vInt (Int.ofNat ((1 + 100) % 4294967294))) :=
  ⟨(C9_seed_fixing (fun n => n + 100)).1 "Steps" [PyVal.vInt (-1)] 0 (by decide) (by decide),
   by
    have := ((C9_seed_fixing (fun n => n + 100)).2.1 "Seed"
      [PyVal.vInt (-1), PyVal.vInt 7, PyVal.vStr "", PyVal.vNone] 0 (Or.inl rfl)).2 2
      (PyVal.vStr "") (by rfl)
    rw [this]
    decide⟩

end MVar

namespace MVar

/-! ### C6: confirm-before-render -/

/-- **C6**: any failure of the three `process_axis` calls — in particular
a confirm validator rejecting an expanded value — makes `Script.run`
re-raise it with zero render calls performed; a declared validator that
rejects makes its `process_axis` fail, and the validator is invoked
exactly once, with the full expanded sequence; and `confirm_samplers`
does reject whenever the expanded list holds a value that is not a
recognized sampler name. -/
theorem C6_confirm_before_render {σ : Type} (env : DrawEnv σ) (colOpt rowOpt pgOpt : AxisOptionM)
    (cf rf pf : PyVal → String) (colT rowT pgT : String) (nf : Bool) (rng : Nat → Nat) (s : σ) :
    (∀ e, (process_axis colOpt colT).1 = .error e →
      Script_run env colOpt rowOpt pgOpt cf rf pf colT rowT pgT nf rng s = (.error e, s, 0)) ∧
    (∀ e lc, (process_axis colOpt colT).1 = .ok lc →
      (process_axis rowOpt rowT).1 = .error e →
      Script_run env colOpt rowOpt pgOpt cf rf pf colT rowT pgT nf rng s = (.error e, s, 0)) ∧
    (∀ e lc lr, (process_axis colOpt colT).1 = .ok lc →
      (process_axis rowOpt rowT).1 = .ok lr →
      (process_axis pgOpt pgT).1 = .error e →
      Script_run env colOpt rowOpt pgOpt cf rf pf colT rowT pgT nf rng s = (.error e, s, 0)) ∧
    (∀ (opt : AxisOptionM) (t : String) (f : List PyVal → Except PyExc Unit)
        (l : List PyVal) (e : PyExc),
      opt.label ≠ "Nothing" → process_axis_vals opt.typ t = .ok l →
      opt.confirm = some f → f l = .error e →
      (process_axis opt t).1 = .error e ∧ (process_axis opt t).2 = [l]) ∧
    (∀ (smap : List String) (l : List PyVal),
      (∃ x ∈ l, ∀ str : String, x = PyVal.vStr str → smap.contains (pyLower str) = false) →
      ∃ e, confirm_samplers smap l = .error e) := by
  refine ⟨?_, ?_, ?_, ?_, ?_⟩
  · intro e h
    unfold Script_run
    rw [h]
  · intro e lc hc h
    unfold Script_run
    rw [hc, h]
  · intro e lc lr hc hr h
    unfold Script_run
    rw [hc, hr, h]
  · intro opt t f l e hn hv hc hf
    unfold process_axis
    rw [if_neg hn]
    simp only [hv, hc, hf]
    constructor <;> trivial
  · intro smap l
    induction l with
    | nil => rintro ⟨x, hx, _⟩; simp at hx
    | cons w rest ih =>
        rintro ⟨x, hx, hinv⟩
        rcases List.mem_cons.mp hx with hxw | hxr
        · subst hxw
          cases x with
          | vStr str =>
              have hno : ¬ pyLower str ∈ smap := by simpa using hinv str rfl
              exact ⟨PyExc.runtimeError ("Unknown sampler: " ++ str),
                by simp [confirm_samplers, hno]⟩
          | vInt n => exact ⟨_, rfl⟩
          | vFloat q => exact ⟨_, rfl⟩
          | vNone => exact ⟨_, rfl⟩
          | vTuple tl => exact ⟨_, rfl⟩
        · cases w with
          | vStr str =>
              by_cases hcont : pyLower str ∈ smap
              · obtain ⟨e, he⟩ := ih ⟨x, hxr, hinv⟩
                exact ⟨e, by simp [confirm_samplers, hcont, he]⟩
              · exact ⟨PyExc.runtimeError ("Unknown sampler: " ++ str),
                  by simp [confirm_samplers, hcont]⟩
          | vInt n => exact ⟨_, rfl⟩
          | vFloat q => exact ⟨_, rfl⟩
          | vNone => exact ⟨_, rfl⟩
          | vTuple tl => exact ⟨_, rfl⟩

/-- Witness for C6: a sampler axis with the unknown name `DDIM` (host map
knows only `euler`) aborts the whole run with zero render calls. -/
theorem C6_witness :
    Script_run plainEnv (samplerOpt ["euler"]) nothingOpt nothingOpt
      (fun _ => "") (fun _ => "") (fun _ => "") "Euler, DDIM" "" "" true (fun _ => 0) () =
      (.error (.runtimeError "Unknown sampler: DDIM"), (), 0) :=
  (C6_confirm_before_render plainEnv (samplerOpt ["euler"]) nothingOpt nothingOpt
    (fun _ => "") (fun _ => "") (fun _ => "") "Euler, DDIM" "" "" true (fun _ => 0) ()).1
    (.runtimeError "Unknown sampler: DDIM") (by rfl)

/-! ### C4: per-cell render failure -/

/-- **C4 counterexample**: the claim says a render-callback failure "by
raising an exception ... is never propagated to the caller"; in fact the
`cell(c, r, pg)` call sits outside the `try` block (line 209 vs 211), so
an exception raised by the callback propagates out of
`draw_crp_pages`. -/
theorem C4_counterexample :
    (draw_crp_pages envRenderRaises [.vInt 0] [.vInt 0] [.vInt 0] [""] [""] [""] ()).1 =
      .error (.runtimeError "render failed") := by
  rfl

/-- **C4 (amended)**: if the render callback *returns* a result with no
images, a blank placeholder of the current template mode and size is
substituted for the cell, nothing is raised, and the inner loop continues
with the remaining columns (or breaks on the interrupt flag, as always);
an exception *raised* by the callback itself, by contrast, propagates to
the caller (the try block guards only the result dereference and
aggregation). -/
theorem C4_render_failure_masked {σ : Type} (env : DrawEnv σ) (r pg c : PyVal)
    (rest : List PyVal) (st : DrawSt) (s s1 : σ) (p : Processed)
    (hcell : env.cell c r pg s = (.ok p, s1)) (himg : p.images = []) :
    innerCols env r pg (c :: rest) st s =
      if env.interrupted s1 then
        (.ok { st with cache_images :=
          st.cache_images ++ [Image.mk st.cell_mode st.cell_size] }, s1)
      else innerCols env r pg rest
        { st with cache_images := st.cache_images ++ [Image.mk st.cell_mode st.cell_size] } s1 := by
  have ht : tryBlock env.include_lone_images st p = (st, Image.mk st.cell_mode st.cell_size) := by
    unfold tryBlock
    rw [himg]
  simp only [innerCols, hcell, ht]

/-- Witness for C4: a no-image first cell of a two-column row yields a
blank placeholder in the cache and the loop continues with the second
column. -/
theorem C4_witness :
    innerCols envNoImagesCell (.vInt 1) (.vInt 2) [.vInt 0, .vInt 1] {} () =
      innerCols envNoImagesCell (.vInt 1) (.vInt 2) [.vInt 1]
        { cache_images := [Image.mk "P" (1, 1)] } () := by
  rw [C4_render_failure_masked envNoImagesCell (.vInt 1) (.vInt 2) (.vInt 0) [.vInt 1]
    {} () () procNoImages rfl rfl]
  rfl

/-! ### C8: the all-cells-failed sweep -/

/-- **C8**: the claim (and the code's own dead guard at lines 267-269,
which prints "Unexpected error: draw_crp_pages failed to return even a
single processed image" and returns `Processed(), 0`) intends a sweep with
no usable image anywhere to report an empty zero-page result; but when
the page axis is non-empty and every cell fails, `processed_result` is
still `None` at the first page composition and line 260
(`processed_result.images.insert(...)`) raises `AttributeError` before
that guard can run. -/
theorem C8_no_image_sweep_raises :
    (draw_crp_pages envNoImagesCell [.vInt 0] [.vInt 0] [.vInt 0] [""] [""] [""] ()).1 =
      .error PyExc.attributeError := by
  rfl

end MVar

namespace MVar

/-! ### C5: the combination-count invariant -/

/-- injectivity of a `(Except.ok _, state)` result pair -/
theorem prodOk_inj {σ A : Type} {x y : A} {u v : σ}
    (h : ((Except.ok x : Except PyExc A), u) = (Except.ok y, v)) : x = y ∧ u = v := by
  injection h with h1 h2
  injection h1 with h3
  exact ⟨h3, h2⟩

/-- the `try` block never touches the cache -/
theorem tryBlock_cache (il : Bool) (st : DrawSt) (p : Processed) :
    (tryBlock il st p).1.cache_images = st.cache_images := by
  unfold tryBlock
  dsimp only
  repeat' split
  all_goals rfl

/-- the `try` block never touches the ghost page counts -/
theorem tryBlock_counts (il : Bool) (st : DrawSt) (p : Processed) :
    (tryBlock il st p).1.composedCounts = st.composedCounts := by
  unfold tryBlock
  dsimp only
  repeat' split
  all_goals rfl

/-- The column loop appends one image per rendered cell: at most one per
column, exactly one per column when it was not cut short by the interrupt
flag; the ghost counts are untouched. -/
theorem innerCols_spec {σ : Type} (env : DrawEnv σ) (r pg : PyVal) :
    ∀ (cols : List PyVal) (st : DrawSt) (s : σ) (stOut : DrawSt) (sOut : σ),
      innerCols env r pg cols st s = (.ok stOut, sOut) →
      stOut.cache_images.length ≤ st.cache_images.length + cols.length ∧
      (env.interrupted sOut = false →
        stOut.cache_images.length = st.cache_images.length + cols.length) ∧
      stOut.composedCounts = st.composedCounts := by
  intro cols
  induction cols with
  | nil =>
      intro st s stOut sOut h
      obtain ⟨rfl, rfl⟩ := prodOk_inj h
      simp
  | cons c rest ih =>
      intro st s stOut sOut h
      rcases hc : env.cell c r pg s with ⟨res, s2⟩
      simp only [innerCols, hc] at h
      cases res with
      | error e => simp at h
      | ok p =>
          rcases htb : tryBlock env.include_lone_images st p with ⟨st1, img⟩
          simp only [htb] at h
          have hcache : st1.cache_images = st.cache_images := by
            have hx := tryBlock_cache env.include_lone_images st p
            rw [htb] at hx
            exact hx
          have hcounts : st1.composedCounts = st.composedCounts := by
            have hx := tryBlock_counts env.include_lone_images st p
            rw [htb] at hx
            exact hx
          by_cases hi : env.interrupted s2 = true
          · rw [if_pos hi] at h
            obtain ⟨rfl, rfl⟩ := prodOk_inj h
            refine ⟨?_, ?_, ?_⟩
            · simp only [List.length_cons, List.length_append, List.length_nil, hcache]
              omega
            · intro hf
              rw [hi] at hf
              cases hf
            · simpa using hcounts
          · rw [if_neg hi] at h
            obtain ⟨ih1, ih2, ih3⟩ := ih _ _ _ _ h
            simp only [List.length_append, List.length_cons, List.length_nil, hcache,
              hcounts] at ih1 ih2 ih3
            refine ⟨?_, ?_, ih3⟩
            · simp only [List.length_cons]
              omega
            · intro hf
              have hx := ih2 hf
              simp only [List.length_cons]
              omega

/-- The row loop: from a cache holding `(R - remaining) * cols` images, a
successful exit — interrupted (padded) or complete — leaves exactly
`R * cols` images; the ghost counts are untouched. -/
theorem rowLoop_spec {σ : Type} (env : DrawEnv σ) (pg : PyVal) (cols : List PyVal) (R : Nat) :
    ∀ (rows' : List PyVal) (st : DrawSt) (s : σ) (stOut : DrawSt) (sOut : σ),
      rowLoop env pg cols R cols.length rows' st s = (.ok stOut, sOut) →
      rows'.length ≤ R →
      st.cache_images.length = (R - rows'.length) * cols.length →
      stOut.cache_images.length = R * cols.length ∧
      stOut.composedCounts = st.composedCounts := by
  intro rows'
  induction rows' with
  | nil =>
      intro st s stOut sOut h _ hlen
      obtain ⟨rfl, rfl⟩ := prodOk_inj h
      simpa using hlen
  | cons rr rest ih =>
      intro st s stOut sOut h hle hlen
      simp only [List.length_cons] at hle hlen
      rcases hin : innerCols env rr pg cols st s with ⟨res, s2⟩
      simp only [rowLoop, hin] at h
      cases res with
      | error e => simp at h
      | ok st1 =>
          dsimp only at h
          obtain ⟨hin1, hin2, hin3⟩ := innerCols_spec env rr pg cols st s st1 s2 hin
          have hstep : (R - (rest.length + 1)) * cols.length + cols.length =
              (R - rest.length) * cols.length := by
            have hR : R - rest.length = (R - (rest.length + 1)) + 1 := by omega
            rw [hR, Nat.succ_mul]
          have hmc : cols.length * R = R * cols.length := Nat.mul_comm _ _
          have hsub : (R - rest.length) * cols.length ≤ R * cols.length :=
            Nat.mul_le_mul_right _ (by omega)
          by_cases hi : env.interrupted s2 = true
          · rw [if_pos hi] at h
            obtain ⟨rfl, rfl⟩ := prodOk_inj h
            constructor
            · simp only [List.length_append, List.length_replicate]
              omega
            · simpa using hin3
          · rw [if_neg hi] at h
            have hlen1 : st1.cache_images.length = (R - rest.length) * cols.length := by
              have hx := hin2 (by simpa using hi)
              rw [hx, hlen, hstep]
            obtain ⟨g1, g2⟩ := ih st1 s2 stOut sOut h (by omega) hlen1
            exact ⟨g1, g2.trans hin3⟩

/-- Page composition clears the cache and records its size in the ghost
counts, whatever the legend options do. -/
theorem composePage_state {σ : Type} (env : DrawEnv σ) (st : DrawSt) (nR nP ipg : Nat)
    (cl rl pl : List String) (g : Except PyExc Image) (st2 : DrawSt)
    (h : composePage env st nR nP ipg cl rl pl = (g, st2)) :
    st2 = { st with cache_images := [],
                    composedCounts := st.composedCounts ++ [st.cache_images.length] } := by
  unfold composePage at h
  dsimp only at h
  repeat' split at h
  all_goals (cases h; rfl)

/-- The page loop: every composed page contributes exactly
`rows × cols` images to the ghost counts; the page count grows by at most
the number of remaining pages, and by exactly that number when the
interrupt flag is never observed. -/
theorem pageLoop_spec {σ : Type} (env : DrawEnv σ) (cols rows : List PyVal)
    (cl rl pl : List String) (nP : Nat) :
    ∀ (pgs : List PyVal) (ipg : Nat) (st : DrawSt) (s : σ) (stOut : DrawSt) (n : Nat) (sOut : σ),
      pageLoop env cols rows cl rl pl nP pgs ipg st s = (.ok (stOut, n), sOut) →
      st.cache_images = [] →
      ipg ≤ n ∧ n ≤ ipg + pgs.length ∧
      stOut.composedCounts =
        st.composedCounts ++ List.replicate (n - ipg) (rows.length * cols.length) ∧
      ((pgs = [] ∧ stOut = st ∧ n = ipg) ∨ stOut.processed_result.isSome) ∧
      ((∀ t, env.interrupted t = false) → n = ipg + pgs.length) := by
  intro pgs
  induction pgs with
  | nil =>
      intro ipg st s stOut n sOut h _
      obtain ⟨h1, rfl⟩ := prodOk_inj h
      injection h1 with h2 h3
      subst h2
      subst h3
      refine ⟨Nat.le_refl _, by simp, by simp, Or.inl ⟨rfl, rfl, rfl⟩, fun _ => by simp⟩
  | cons pg rest ih =>
      intro ipg st s stOut n sOut h hcache
      rcases hr : rowLoop env pg cols rows.length cols.length rows st s with ⟨res, s2⟩
      simp only [pageLoop, hr] at h
      cases res with
      | error e => simp at h
      | ok st1 =>
          dsimp only at h
          obtain ⟨hrl1, hrl2⟩ := rowLoop_spec env pg cols rows.length rows st s st1 s2 hr
            (Nat.le_refl _) (by simp [hcache])
          rcases hcp : composePage env st1 rows.length nP ipg cl rl pl with ⟨gres, st2⟩
          simp only [hcp] at h
          cases gres with
          | error e => simp at h
          | ok grid =>
              dsimp only at h
              have hst2 := composePage_state env st1 rows.length nP ipg cl rl pl _ _ hcp
              have hc2 : st2.composedCounts =
                  st.composedCounts ++ [rows.length * cols.length] := by
                rw [hst2]
                simp [hrl1, hrl2]
              have hcc2 : st2.cache_images = [] := by rw [hst2]
              rcases hpr : st2.processed_result with _ | pr1
              · rw [hpr] at h
                simp at h
              · rw [hpr] at h
                dsimp only at h
                by_cases hi : env.interrupted s2 = true
                · rw [if_pos hi] at h
                  obtain ⟨h1, rfl⟩ := prodOk_inj h
                  injection h1 with h2 h3
                  subst h2
                  subst h3
                  refine ⟨by omega, by simp, ?_, Or.inr (by simp), ?_⟩
                  · have he : ipg + 1 - ipg = 1 := by omega
                    rw [he]
                    simp [hc2]
                  · intro hall
                    have hx := hall s2
                    rw [hi] at hx
                    cases hx
                · rw [if_neg hi] at h
                  obtain ⟨g1, g2, g3, g4, g5⟩ :=
                    ih (ipg + 1) _ s2 stOut n sOut h (by simpa using hcc2)
                  refine ⟨by omega, ?_, ?_, ?_, ?_⟩
                  · simp only [List.length_cons]
                    omega
                  · dsimp only at g3
                    rw [g3, hc2, List.append_assoc]
                    congr 1
                    have hn : n - ipg = (n - (ipg + 1)) + 1 := by omega
                    rw [hn, List.replicate_succ]
                    rfl
                  · rcases g4 with ⟨_, hst, _⟩ | hsome
                    · right
                      rw [hst]
                      simp
                    · right
                      exact hsome
                  · intro hall
                    have hx := g5 hall
                    simp only [List.length_cons]
                    omega

/-- **C5 (amended)**: on a successful return of `draw_crp_pages`, each of
the `n` composed pages was built from exactly `rows × cols` cell images
(successful renders plus blank placeholders), so the total is
`n × rows × cols` where `n` is the returned page count; `n` never exceeds
the page-axis length, and equals it when the interrupt flag is never
observed — under an interrupt the remaining pages are abandoned, so the
total falls short of `pages × rows × cols`. -/
theorem C5_cell_count {σ : Type} (env : DrawEnv σ) (rows cols pages : List PyVal)
    (cl rl pl : List String) (s : σ) (pr : Processed) (n : Nat) (counts : List Nat) (sOut : σ)
    (h : draw_crp_pages env rows cols pages cl rl pl s = (.ok (pr, n, counts), sOut)) :
    counts.length = n ∧ (∀ x ∈ counts, x = rows.length * cols.length) ∧
    counts.sum = n * (rows.length * cols.length) ∧ n ≤ pages.length ∧
    ((∀ t, env.interrupted t = false) → n = pages.length) := by
  unfold draw_crp_pages at h
  rcases hp : pageLoop env cols rows cl rl pl pages.length pages 0 {} s with ⟨res, s2⟩
  rw [hp] at h
  cases res with
  | error e => simp at h
  | ok stn =>
      rcases stn with ⟨st1, n1⟩
      dsimp only at h
      obtain ⟨b1, b2, b3, b4, b5⟩ :=
        pageLoop_spec env cols rows cl rl pl pages.length pages 0 {} s st1 n1 s2 hp rfl
      have hrep : st1.composedCounts = List.replicate (n1 - 0) (rows.length * cols.length) := by
        simpa using b3
      rcases hpr : st1.processed_result with _ | pr1
      · rw [hpr] at h
        obtain ⟨h1, rfl⟩ := prodOk_inj h
        injection h1 with h2 h3
        injection h3 with h4 h5
        subst h2
        subst h4
        subst h5
        rcases b4 with ⟨hpgs, hsteq, hn0⟩ | hsome
        · subst hn0
          refine ⟨by simp [hrep], ?_, by simp [hrep], by simp, fun _ => by simp [hpgs]⟩
          intro x hx
          rw [hrep] at hx
          simp at hx
        · rw [hpr] at hsome
          cases hsome
      · rw [hpr] at h
        obtain ⟨h1, rfl⟩ := prodOk_inj h
        injection h1 with h2 h3
        injection h3 with h4 h5
        subst h2
        subst h4
        subst h5
        refine ⟨by simp [hrep], ?_, ?_, by simpa using b2, fun hall => by simpa using b5 hall⟩
        · intro x hx
          rw [hrep] at hx
          exact List.eq_of_mem_replicate hx
        · rw [hrep]
          simp [List.sum_replicate, smul_eq_mul]

/-- Witness for C5 on a concrete uninterrupted 1×1×2 sweep. -/
theorem C5_witness :
    [(2 : Nat)].length = 1 ∧
    (∀ x ∈ [(2 : Nat)], x = [PyVal.vInt 0].length * [PyVal.vInt 0, PyVal.vInt 1].length) ∧
    [(2 : Nat)].sum = 1 * ([PyVal.vInt 0].length * [PyVal.vInt 0, PyVal.vInt 1].length) ∧
    1 ≤ [PyVal.vInt 5].length ∧
    ((∀ t : Unit, plainEnv.interrupted t = false) → 1 = [PyVal.vInt 5].length) :=
  C5_cell_count plainEnv [PyVal.vInt 0] [PyVal.vInt 0, PyVal.vInt 1] [PyVal.vInt 5]
    ["a", "b"] ["c"] ["d"] () prGrid2 1 [2] () rfl

/-- **C5 counterexample**: on a 2-page, 1-row, 1-column sweep whose first
cell raises the interrupt flag, only one cell image is ever composed
(the second page is abandoned), so the total is 1, not
`pages × rows × cols = 2` — the claim's "regardless of whether an
interrupt signal was observed" fails. -/
theorem C5_counterexample :
    ((draw_crp_pages envSelfInterrupt [PyVal.vInt 0] [PyVal.vInt 0]
        [PyVal.vInt 0, PyVal.vInt 1] [""] [""] ["", ""] false).1.map
      fun x => x.2.2.sum) = .ok 1 ∧
    [PyVal.vInt 0, PyVal.vInt 1].length *
      ([PyVal.vInt 0].length * [PyVal.vInt 0].length) = 2 ∧
    (1 : Nat) ≠ 2 := by
  exact ⟨rfl, rfl, by decide⟩

end MVar

namespace MVar

/-! ### C10: bare `START-END` fields and branch priority

The two numeric grammars of each type differ only in the optional suffix
(`(±STEP)` vs `[COUNT]`), both of the form `(?: body )?` = `body | ε`.
A full match that left group 3 empty cannot have gone through the body
(the body always captures group 3), so it went through the ε alternative —
and that very match is also a full match of the grammar with the *other*
suffix.  Hence a bare `START-END` field matches both grammars whenever it
matches one, and since `process_axis` tries the step grammar first, the
count branch can only ever run for a field with an explicit bracketed
count. -/

/-- matching a group-free regex leaves the captures untouched -/
theorem REmatch_caps_of_groupFree :
    ∀ (r : RE), groupFree r → ∀ (cs : List Char) (k : Caps) (rk : List Char × Caps),
      rk ∈ REmatch r cs k → rk.2 = k := by
  intro r
  induction r with
  | eps =>
      intro _ cs k rk h
      simp only [REmatch, List.mem_singleton] at h
      rw [h]
  | cls p =>
      intro _ cs k rk h
      cases cs with
      | nil => simp [REmatch] at h
      | cons c cs' =>
          simp only [REmatch] at h
          by_cases hpc : p c
          · rw [if_pos hpc] at h
            simp only [List.mem_singleton] at h
            rw [h]
          · rw [if_neg hpc] at h
            simp at h
  | cat a b iha ihb =>
      rintro ⟨ga, gb⟩ cs k rk h
      simp only [REmatch, List.mem_flatMap] at h
      obtain ⟨mid, hmid, hrk⟩ := h
      rw [ihb gb mid.1 mid.2 rk hrk, iha ga cs k mid hmid]
  | alt a b iha ihb =>
      rintro ⟨ga, gb⟩ cs k rk h
      simp only [REmatch, List.mem_append] at h
      rcases h with h | h
      · exact iha ga cs k rk h
      · exact ihb gb cs k rk h
  | starCls p =>
      intro _ cs k rk h
      simp only [REmatch, List.mem_map] at h
      obtain ⟨j, _, hj⟩ := h
      rw [← hj]
  | group n a ih =>
      intro hg
      exact hg.elim

/-- membership through a concatenation -/
theorem REmatch_cat_mem {a b : RE} {cs : List Char} {k : Caps} {rk : List Char × Caps} :
    rk ∈ REmatch (.cat a b) cs k ↔
      ∃ mid ∈ REmatch a cs k, rk ∈ REmatch b mid.1 mid.2 := by
  simp [REmatch, List.mem_flatMap]

/-- membership through an alternation -/
theorem REmatch_alt_mem {a b : RE} {cs : List Char} {k : Caps} {rk : List Char × Caps} :
    rk ∈ REmatch (.alt a b) cs k ↔ rk ∈ REmatch a cs k ∨ rk ∈ REmatch b cs k := by
  simp [REmatch]

/-- membership through the empty regex -/
theorem REmatch_eps_mem {cs : List Char} {k : Caps} {rk : List Char × Caps} :
    rk ∈ REmatch .eps cs k ↔ rk = (cs, k) := by
  simp [REmatch]

/-- membership through a capturing group -/
theorem REmatch_group_mem {n : Nat} {a : RE} {cs : List Char} {k : Caps}
    {rk : List Char × Caps} :
    rk ∈ REmatch (.group n a) cs k ↔
      ∃ mid ∈ REmatch a cs k,
        (mid.1, setCap n (String.mk (cs.take (cs.length - mid.1.length))) mid.2) = rk := by
  simp [REmatch, List.mem_map]

/-- Any match of a suffix body `\s* OPEN (group 3) \s* CLOSE` captures
group 3. -/
theorem REmatch_suffix_body_g3 (p1 p2 : Char → Bool) (core : RE) :
    ∀ (cs : List Char) (k : Caps) (rk : List Char × Caps),
      rk ∈ REmatch (.cat ws (.cat (.cls p1) (.cat (.group 3 core)
        (.cat ws (.cls p2))))) cs k →
      rk.2.g3.isSome := by
  intro cs k rk h
  obtain ⟨m1, hm1, h⟩ := REmatch_cat_mem.mp h
  obtain ⟨m2, hm2, h⟩ := REmatch_cat_mem.mp h
  obtain ⟨m3, hm3, h⟩ := REmatch_cat_mem.mp h
  obtain ⟨m4, hm4, h⟩ := REmatch_cat_mem.mp h
  have h3 : m3.2.g3.isSome := by
    obtain ⟨mid, _, heq⟩ := REmatch_group_mem.mp hm3
    rw [← heq]
    rfl
  have h4 : m4.2 = m3.2 := REmatch_caps_of_groupFree ws (by trivial) m3.1 m3.2 m4 hm4
  have hk : rk.2 = m4.2 := by
    cases hcs : m4.1 with
    | nil => simp [REmatch, hcs] at h
    | cons c cs2 =>
        rw [hcs] at h
        simp only [REmatch] at h
        by_cases hpc : p2 c
        · rw [if_pos hpc] at h
          simp only [List.mem_singleton] at h
          rw [h]
        · rw [if_neg hpc] at h
          simp at h
  rw [hk, h4]
  exact h3

/-- A full match of `rangeShape core (A | ε)` whose group 3 is empty went
through the ε branch, so the same input fully matches
`rangeShape core (B | ε)` with the same captures. -/
theorem rangeShape_alt_swap (core A B : RE)
    (hA : ∀ (cs : List Char) (k : Caps) (rk : List Char × Caps),
      rk ∈ REmatch A cs k → rk.2.g3.isSome)
    (cs : List Char) (k : Caps)
    (h : ([], k) ∈ REmatch (rangeShape core (.alt A .eps)) cs {})
    (hg : k.g3 = none) :
    ([], k) ∈ REmatch (rangeShape core (.alt B .eps)) cs {} := by
  unfold rangeShape at h ⊢
  obtain ⟨m1, hm1, h⟩ := REmatch_cat_mem.mp h
  obtain ⟨m2, hm2, h⟩ := REmatch_cat_mem.mp h
  obtain ⟨m3, hm3, h⟩ := REmatch_cat_mem.mp h
  obtain ⟨m4, hm4, h⟩ := REmatch_cat_mem.mp h
  obtain ⟨m5, hm5, h⟩ := REmatch_cat_mem.mp h
  obtain ⟨m6, hm6, h⟩ := REmatch_cat_mem.mp h
  obtain ⟨m7, hm7, h⟩ := REmatch_cat_mem.mp h
  have hk : k = m7.2 :=
    (REmatch_caps_of_groupFree ws (by trivial) m7.1 m7.2 ([], k) h).symm ▸ rfl
  rcases REmatch_alt_mem.mp hm7 with hA7 | hEps
  · exfalso
    have hsome := hA m6.1 m6.2 m7 hA7
    have : k.g3 = m7.2.g3 := by
      have hck := REmatch_caps_of_groupFree ws (by trivial) m7.1 m7.2 ([], k) h
      rw [show k = ((([] : List Char), k)).2 from rfl, hck]
    rw [hg] at this
    rw [← this] at hsome
    cases hsome
  · have hm7eq : m7 = (m6.1, m6.2) := REmatch_eps_mem.mp hEps
    refine REmatch_cat_mem.mpr ⟨m1, hm1, ?_⟩
    refine REmatch_cat_mem.mpr ⟨m2, hm2, ?_⟩
    refine REmatch_cat_mem.mpr ⟨m3, hm3, ?_⟩
    refine REmatch_cat_mem.mpr ⟨m4, hm4, ?_⟩
    refine REmatch_cat_mem.mpr ⟨m5, hm5, ?_⟩
    refine REmatch_cat_mem.mpr ⟨m6, hm6, ?_⟩
    refine REmatch_cat_mem.mpr ⟨(m6.1, m6.2), ?_, ?_⟩
    · exact REmatch_alt_mem.mpr (Or.inr (REmatch_eps_mem.mpr rfl))
    · rw [hm7eq] at h
      exact h

/-- A witnessed full match makes `fullmatch` succeed. -/
theorem fullmatch_isSome_of_mem (r : RE) (s : String) (k : Caps)
    (h : ([], k) ∈ REmatch r s.toList {}) : (fullmatch r s).isSome := by
  unfold fullmatch
  rcases hf : (REmatch r s.toList {}).filter (fun rk => rk.1 = []) with _ | ⟨x, xs⟩
  · exfalso
    have hx : (([] : List Char), k) ∈
        (REmatch r s.toList {}).filter (fun rk => rk.1 = []) :=
      List.mem_filter.mpr ⟨h, by simp⟩
    rw [hf] at hx
    simp at hx
  · rw [hf]
    simp

/-- A successful `fullmatch` is a full-consumption match. -/
theorem fullmatch_some_mem (r : RE) (s : String) (k : Caps)
    (h : fullmatch r s = some k) : ([], k) ∈ REmatch r s.toList {} := by
  unfold fullmatch at h
  rcases hf : (REmatch r s.toList {}).filter (fun rk => rk.1 = []) with _ | ⟨x, xs⟩
  · rw [hf] at h
    simp at h
  · rw [hf] at h
    simp only [List.head?_cons, Option.map_some] at h
    have hx : x ∈ (REmatch r s.toList {}).filter (fun rk => rk.1 = []) := by
      rw [hf]
      exact List.mem_cons_self _ _
    obtain ⟨hmem, hpred⟩ := List.mem_filter.mp hx
    obtain ⟨x1, x2⟩ := x
    have hx1 : x1 = [] := by simpa using hpred
    have hx2 : x2 = k := by simpa using h
    rw [hx1, hx2] at hmem
    exact hmem

/-- The suffix-swap for whole `fullmatch`es. -/
theorem fullmatch_swap (core A B : RE)
    (hA : ∀ (cs : List Char) (k : Caps) (rk : List Char × Caps),
      rk ∈ REmatch A cs k → rk.2.g3.isSome)
    (s : String) (m : Caps)
    (h : fullmatch (rangeShape core (.alt A .eps)) s = some m) (hg : m.g3 = none) :
    (fullmatch (rangeShape core (.alt B .eps)) s).isSome :=
  fullmatch_isSome_of_mem _ _ m
    (rangeShape_alt_swap core A B hA s.toList m (fullmatch_some_mem _ _ _ h) hg)

/-- **C10**: a bare `START-END` int or float field (no parenthesized step,
no bracketed count) matches both numeric range grammars, and the
step-range interpretation takes priority: `"1-5"` expands to the full
arithmetic sequence `[1,2,3,4,5]` with step 1, never the count-grammar
default of a single sample; conversely, whenever the count branch is
reached (`re_range` failed and `re_range_count` matched), the match
carries an explicit bracketed count in group 3. -/
theorem C10_bare_range_priority :
    process_axis_vals AxType.tInt "1-5" =
      .ok [.vInt 1, .vInt 2, .vInt 3, .vInt 4, .vInt 5] ∧
    fullmatch re_range "1-5" = some ⟨some "1", some "5", none⟩ ∧
    fullmatch re_range_count "1-5" = some ⟨some "1", some "5", none⟩ ∧
    (∀ (s : String) (mc : Caps), fullmatch re_range_count s = some mc → mc.g3 = none →
      (fullmatch re_range s).isSome) ∧
    (∀ (s : String) (m : Caps), fullmatch re_range s = some m → m.g3 = none →
      (fullmatch re_range_count s).isSome) ∧
    (∀ (s : String) (mc : Caps), fullmatch re_range_count_float s = some mc → mc.g3 = none →
      (fullmatch re_range_float s).isSome) ∧
    (∀ (s : String) (m : Caps), fullmatch re_range_float s = some m → m.g3 = none →
      (fullmatch re_range_count_float s).isSome) ∧
    (∀ (s : String) (mc : Caps), fullmatch re_range s = none →
      fullmatch re_range_count s = some mc → mc.g3.isSome) := by
  refine ⟨by rfl, by rfl, by rfl, ?_, ?_, ?_, ?_, ?_⟩
  · intro s mc h hg
    exact fullmatch_swap intCore _ _ (REmatch_suffix_body_g3 _ _ _) s mc h hg
  · intro s m h hg
    exact fullmatch_swap intCore _ _ (REmatch_suffix_body_g3 _ _ _) s m h hg
  · intro s mc h hg
    exact fullmatch_swap floatCore _ _ (REmatch_suffix_body_g3 _ _ _) s mc h hg
  · intro s m h hg
    exact fullmatch_swap floatCore _ _ (REmatch_suffix_body_g3 _ _ _) s m h hg
  · intro s mc hnone hsome
    rcases hg : mc.g3 with _ | v
    · exfalso
      have hIs : (fullmatch re_range s).isSome :=
        fullmatch_swap intCore _ _ (REmatch_suffix_body_g3 _ _ _) s mc hsome hg
      rw [hnone] at hIs
      cases hIs
    · rfl

/-- Witness for C10: the bracket-free count-grammar match of `"1-5"`
forces a step-grammar match. -/
theorem C10_witness : (fullmatch re_range "1-5").isSome :=
  C10_bare_range_priority.2.2.2.1 "1-5" ⟨some "1", some "5", none⟩ rfl rfl

end MVar
